import Mathlib

/-!
Verification of the Nestie repository's orchestration layer: the query
classifier, conversation history buffer, answer router (`rag_chatbot.py`)
and the Slack channel command parser / analyzer (`slack_bot.py`).

External collaborators (the LangChain RAG chain, the language model, and
the Slack API) are modelled as function parameters ("oracles"): the code
under verification only composes their outputs.

Python strings are modelled as Lean `String` / `List Char`.  The regular
expressions used by the source are a fixed finite set of word-boundary
alternation patterns; they are embedded directly as decidable scanners
below.  Word characters and case mapping are modelled over ASCII (the
source's patterns and keywords are all ASCII; Python's `\w`/`lower` are
Unicode-aware, which coincides with this model on ASCII input).
-/

/-- Python `\s` / `str.strip` whitespace class (ASCII part). -/
def isPyWs (c : Char) : Bool :=
  c = ' ' || c = '\t' || c = '\n' || c = '\r' || c = '\x0b' || c = '\x0c'

/-- Python `str.strip()` on a character list. -/
def pyStrip (s : List Char) : List Char :=
  ((s.dropWhile isPyWs).reverse.dropWhile isPyWs).reverse

/-- Python `str.lower()` (ASCII case mapping). -/
def lowerChars (s : List Char) : List Char :=
  s.map Char.toLower

/-- Python `str.strip()` on a `String`. -/
def pyStripStr (s : String) : String :=
  String.mk (pyStrip s.data)

/-- Python substring membership `w in s`. -/
def containsSub (w : List Char) : List Char → Bool
  | [] => w.isEmpty
  | c :: rest => w.isPrefixOf (c :: rest) || containsSub w rest

/-- Python's `sep.join(parts)`. -/
def joinSep (sep : String) : List String → String
  | [] => ""
  | [s] => s
  | s :: rest => s ++ sep ++ joinSep sep rest

/-- Regex `\w` word character (ASCII: letters, digits, underscore). -/
def isWordChar (c : Char) : Bool :=
  c.isAlpha || c.isDigit || c = '_'

/-- Word-boundary test on the left of a match position, given the already
scanned characters in reverse order. -/
def boundaryBefore : List Char → Bool
  | [] => true
  | c :: _ => !(isWordChar c)

/-- Word-boundary test after `n` consumed characters of `s`. -/
def boundaryAfterDrop (n : Nat) (s : List Char) : Bool :=
  match s.drop n with
  | [] => true
  | c :: _ => !(isWordChar c)

/-- Does one of the alternatives match at the current position with `\b`
on both sides?  Every alternative in the source's patterns begins and ends
with a word character, so `\b` amounts to these two boundary checks. -/
def wbHitAt (alts : List (List Char)) (rev s : List Char) : Bool :=
  alts.any fun w => w.isPrefixOf s && boundaryBefore rev && boundaryAfterDrop w.length s

/-- `re.search` of `\b(alt1|alt2|...)\b`: scan every start position. -/
def wbSearchAux (alts : List (List Char)) : List Char → List Char → Bool
  | _, [] => false
  | rev, c :: rest => wbHitAt alts rev (c :: rest) || wbSearchAux alts (c :: rev) rest

/-- `re.search` of `\b(alt1|alt2|...)\b` over a character list. -/
def wbSearch (alts : List String) (s : List Char) : Bool :=
  wbSearchAux (alts.map String.data) [] s

/-- `re.search` of `^\s*(alt1|...)\s*$`: leading whitespace, one
alternative, trailing whitespace, end of string. -/
def fullAltWs (alts : List String) (s : List Char) : Bool :=
  let t := s.dropWhile isPyWs
  alts.any fun w => w.data.isPrefixOf t && (t.drop w.data.length).all isPyWs

/-- `re.search` of `^\s*(alt1|...)\b`. -/
def startAltWb (alts : List String) (s : List Char) : Bool :=
  let t := s.dropWhile isPyWs
  alts.any fun w => w.data.isPrefixOf t && boundaryAfterDrop w.data.length t

/-- The lookahead body `.*\b(document|file|pdf)\b` of the help pattern:
scan forward (never across a newline, which `.` cannot consume) for a
word-bounded occurrence of one of the three words. -/
def scanNoNewline (alts : List (List Char)) : List Char → List Char → Bool
  | _, [] => false
  | rev, c :: rest =>
      wbHitAt alts rev (c :: rest) || (c ≠ '\n' && scanNoNewline alts (c :: rev) rest)

/-- Alternatives of the help pattern. -/
def helpAlts : List (List Char) :=
  ["can you help".data, "help me".data]

/-- Words excluded by the help pattern's negative lookahead. -/
def helpLookWords : List (List Char) :=
  ["document".data, "file".data, "pdf".data]

/-- `re.search` of `\b(can you help|help me)\b(?!.*\b(document|file|pdf)\b)`. -/
def helpSearchAux : List Char → List Char → Bool
  | _, [] => false
  | rev, c :: rest =>
      (helpAlts.any fun w =>
        w.isPrefixOf (c :: rest) && boundaryBefore rev && boundaryAfterDrop w.length (c :: rest)
          && !(scanNoNewline helpLookWords (w.reverse ++ rev) ((c :: rest).drop w.length)))
      || helpSearchAux (c :: rev) rest

/-- `re.search` of the help pattern over a character list. -/
def helpSearch (s : List Char) : Bool :=
  helpSearchAux [] s

/-- The `continuation_patterns` list of `_setup_classification_patterns`:
true iff any of the five regexes matches (`any(re.search(p, q))`). -/
def continuationMatch (s : List Char) : Bool :=
  wbSearch ["also", "and", "furthermore", "additionally", "moreover"] s
  || wbSearch ["what about", "how about", "tell me more"] s
  || wbSearch ["continue", "more", "further", "elaborate"] s
  || wbSearch ["that", "this", "it", "they"] s
  || startAltWb ["and", "but", "however", "although", "though"] s

/-- The `general_patterns` list of `_setup_classification_patterns`:
true iff any of the eight regexes matches. -/
def generalMatch (s : List Char) : Bool :=
  wbSearch ["hello", "hi", "hey", "good morning", "good afternoon", "good evening"] s
  || wbSearch ["how are you", "what\x27s up", "how\x27s it going"] s
  || wbSearch ["thank you", "thanks", "appreciate"] s
  || wbSearch ["goodbye", "bye", "see you", "talk to you later"] s
  || wbSearch ["who are you", "what are you", "tell me about yourself"] s
  || helpSearch s
  || fullAltWs ["yes", "no", "okay", "ok", "sure", "maybe", "perhaps"] s
  || wbSearch ["weather", "time", "date", "joke", "story"] s

/-- The fixed `document_keywords` vocabulary of
`_setup_classification_patterns`. -/
def baseDocumentKeywords : List String :=
  ["document", "doc", "file", "paper", "text", "pdf", "summarize", "summary",
   "main topic", "key points", "information", "data", "content", "source",
   "reference", "what does", "according to", "mentioned in", "states that",
   "chapter", "section", "page", "paragraph", "policy", "rule"]

/-- Full keyword list: the fixed vocabulary followed by every loaded
document's lower-cased name (the constructor's append loop). -/
def document_keywords (loadedDocuments : List String) : List String :=
  baseDocumentKeywords ++ loadedDocuments.map (fun d => String.mk (lowerChars d.data))

/-- Keyword occurrence count of `classify_query`:
`sum(1 for keyword in self.document_keywords if keyword in question_lower)`. -/
def docScore (loadedDocuments : List String) (ql : List Char) : Nat :=
  ((document_keywords loadedDocuments).filter fun k => containsSub k.data ql).length

/-- Number of distinct configured keywords occurring in the question
(the spec's "distinct configured document keywords" reading). -/
def distinctDocScore (loadedDocuments : List String) (ql : List Char) : Nat :=
  ((document_keywords loadedDocuments).dedup.filter fun k => containsSub k.data ql).length

/-- `RAGChatbot.classify_query`.  `lastQueryType` models
`self.last_query_type` (always `None` or one of the non-empty strings
`"rag"/"general"/"mixed"`, so Python truthiness is `Option.isSome`). -/
def classify_query (loadedDocuments : List String) (lastQueryType : Option String)
    (question : String) : String :=
  let question_lower := pyStrip (lowerChars question.data)
  let is_continuation := continuationMatch question_lower
  if is_continuation && lastQueryType.isSome then lastQueryType.getD ""
  else if generalMatch question_lower then "general"
  else
    let doc_score := docScore loadedDocuments question_lower
    if 2 ≤ doc_score then "rag"
    else if doc_score = 1 then "mixed"
    else "general"

/-- `Config.MAX_HISTORY_LENGTH` (`config.py`). -/
def MAX_HISTORY_LENGTH : Nat := 10

/-- One entry of `self.conversation_history` as built by `add_to_history`.
The `timestamp` field (`datetime.now()`, an external wall clock that no
code ever reads back) is omitted. -/
structure ConversationTurn where
  question : String
  answer : String
  query_type : String
deriving DecidableEq

/-- `RAGChatbot.add_to_history`: append the entry, then pop the oldest
element once the length exceeds `max_history_length`. -/
def add_to_history (max_history_length : Nat)
    (conversation_history : List ConversationTurn)
    (entry : ConversationTurn) : List ConversationTurn :=
  let h := conversation_history ++ [entry]
  if max_history_length < h.length then h.drop 1 else h

/-- The `context_parts` loop of `get_conversation_context`. -/
def contextParts : List ConversationTurn → List String
  | [] => []
  | e :: rest =>
      ("Previous Q: " ++ e.question) :: ("Previous A: " ++ e.answer) :: contextParts rest

/-- `RAGChatbot.get_conversation_context` (`history[-limit:]` is the
`drop (length - limit)` suffix). -/
def get_conversation_context (conversation_history : List ConversationTurn)
    (current_question : String) (limit : Nat) : String :=
  if conversation_history = [] then ""
  else
    let recent_history := conversation_history.drop (conversation_history.length - limit)
    let context := joinSep "\n" (contextParts recent_history)
    "Conversation context:\n" ++ context ++ "\n\nCurrent question: " ++ current_question

/-- The fixed "no relevant information" sentinel returned by `ask_rag`. -/
def noRelevantInfo : String :=
  "I don\x27t find any relevant information in the available documents"

/-- The substring `ask_mixed` actually tests the (lower-cased) RAG answer
for. -/
def fallbackPhrase : String := "don\x27t find any relevant information"

/-- `RAGChatbot.ask_rag`.  The LangChain `rag_chain` call is external and
is modelled as an oracle returning the generated text together with the
`document_name` metadata of the retrieved source documents.  Python's
`set()` of source names has unspecified iteration order; it is modelled
as `List.dedup`. -/
def ask_rag (rag_chain : String → String × List String)
    (conversation_history : List ConversationTurn) (question : String) : String :=
  let contextual_query :=
    if conversation_history = [] then question
    else get_conversation_context conversation_history question 2
  let result := rag_chain contextual_query
  let answer := pyStripStr result.1
  if answer = "" then noRelevantInfo
  else
    let source_docs := result.2
    if source_docs = [] then answer
    else
      let sources := source_docs.dedup
      if sources = [] then answer
      else answer ++ "\n\n_Sources: " ++ joinSep ", " sources ++ "_"

/-- `self.general_prompt.format(question=...)` with the template of
`_setup_chains`. -/
def general_prompt_format (question : String) : String :=
  "\nYou are a friendly AI assistant. Respond naturally and conversationally.\nBe helpful, engaging, and personable.\n\nFor Slack formatting:\n- Use *text* for bold (not **text**)  \n- Use _text_ for italic\n- Use • or - for bullet points (not *)\n\nUser: "
    ++ question ++ "\nAssistant: "

/-- `RAGChatbot.ask_general`; the LLM call is an oracle. -/
def ask_general (llm : String → String)
    (conversation_history : List ConversationTurn) (question : String) : String :=
  let formatted_prompt :=
    if conversation_history = [] then general_prompt_format question
    else general_prompt_format (get_conversation_context conversation_history question 2)
  pyStripStr (llm formatted_prompt)

/-- The suggestion `ask_mixed` appends to a general fallback answer. -/
def mixedSuggestion (loadedDocuments : List String) : String :=
  "\n\n💡 _If you\x27re looking for specific information, try asking about: "
    ++ joinSep ", " loadedDocuments ++ "_"

/-- `RAGChatbot.ask_mixed`: try the RAG path, return its result unless its
lower-cased text contains `fallbackPhrase`, in which case fall back to the
general path plus the document-name suggestion. -/
def ask_mixed (rag_chain : String → String × List String) (llm : String → String)
    (conversation_history : List ConversationTurn) (loadedDocuments : List String)
    (question : String) : String :=
  let rag_result := ask_rag rag_chain conversation_history question
  if !(containsSub fallbackPhrase.data (lowerChars rag_result.data)) then rag_result
  else ask_general llm conversation_history question ++ mixedSuggestion loadedDocuments

/-- The mutable conversation state of a `RAGChatbot` instance. -/
structure ChatState where
  conversation_history : List ConversationTurn
  last_query_type : Option String
deriving DecidableEq

/-- `RAGChatbot.ask`: route the question and update the conversation
state.  Returns the answer together with the new state. -/
def ask (rag_chain : String → String × List String) (llm : String → String)
    (loadedDocuments : List String) (max_history_length : Nat) (is_ready : Bool)
    (st : ChatState) (question : String) : String × ChatState :=
  if !is_ready then ("❌ System not ready", st)
  else if pyStrip question.data = [] then
    ("Please ask me something! I can help with documents or just chat.", st)
  else
    let query_type := classify_query loadedDocuments st.last_query_type question
    let answer :=
      if query_type = "rag" then ask_rag rag_chain st.conversation_history question
      else if query_type = "general" then ask_general llm st.conversation_history question
      else ask_mixed rag_chain llm st.conversation_history loadedDocuments question
    let history2 := add_to_history max_history_length st.conversation_history
      ⟨question, answer, query_type⟩
    (answer, ⟨history2, some query_type⟩)

/-- A channel message as assembled by `_get_channel_messages`: text,
resolved author display name, and the local-time hour/minute of its
timestamp (the only parts of the timestamp the analyzers read:
`strftime("%H:%M")` and `.hour`).  The unused `reactions` field is
omitted. -/
structure ChannelMessage where
  text : String
  user : String
  hour : Nat
  minute : Nat
deriving DecidableEq

/-- Two-digit zero padding of `strftime("%H"/"%M")`. -/
def pad2 (n : Nat) : String :=
  if n < 10 then "0" ++ toString n else toString n

/-- One line of `_format_messages_for_analysis`:
`f"[{timestamp}] {msg['user']}: {msg['text']}"`. -/
def formatMessage (m : ChannelMessage) : String :=
  "[" ++ pad2 m.hour ++ ":" ++ pad2 m.minute ++ "] " ++ m.user ++ ": " ++ m.text

/-- The trimming loop of `_format_messages_for_analysis`: walk the
formatted lines most-recent-first, prepending while the test
`len(recent_text + msg) < 8000` passes, and stop at the first failure. -/
def trimRecent : List String → String → String
  | [], recent_text => recent_text
  | m :: rest, recent_text =>
      if (recent_text ++ m).length < 8000 then trimRecent rest (m ++ "\n" ++ recent_text)
      else recent_text

/-- `SlackRAGBot._format_messages_for_analysis`. -/
def format_messages_for_analysis (messages : List ChannelMessage) : String :=
  let formatted := messages.map formatMessage
  let full_text := joinSep "\n" formatted
  if 8000 < full_text.length then trimRecent formatted.reverse ""
  else full_text

/-- Concatenation of a list of lines, each followed by a newline — the
shape of the trimming loop's output. -/
def tailJoin (l : List String) : String :=
  l.foldr (fun m acc => m ++ "\n" ++ acc) ""

/-- `msg['text'][:100]` plus the conditional ellipsis of
`_analyze_activity`. -/
def truncate100 (t : String) : String :=
  String.mk (t.data.take 100) ++ (if 100 < t.length then "..." else "")

/-- Python's `max(iterable, key=key)` over a non-empty iterable given as
head and tail: keeps the first element attaining the maximum key. -/
def pymaxBy {α : Type} (key : α → Nat) : α → List α → α
  | x, [] => x
  | x, y :: rest => pymaxBy key (if key x < key y then y else x) rest

/-- `SlackRAGBot._analyze_activity`.  Python iterates `set(...)` in
unspecified order when computing `max(set(...), key=...)`; the model uses
`List.dedup` as a fixed stand-in for that order. -/
def analyze_activity (channel_id : String) (messages : List ChannelMessage)
    (time_filter : String) : String :=
  if messages = [] then "📭 No activity found in the channel for " ++ time_filter ++ "."
  else
    let total_messages := messages.length
    let users := messages.map (fun m => m.user)
    let distinctUsers := users.dedup
    let unique_users := distinctUsers.length
    let most_active_user :=
      match distinctUsers with
      | [] => ""
      | u :: rest => pymaxBy (fun v => users.count v) u rest
    let hours := messages.map (fun m => m.hour)
    let distinctHours := hours.dedup
    let peak_hour :=
      match distinctHours with
      | [] => 0
      | h :: rest => pymaxBy (fun x => hours.count x) h rest
    let header :=
      "📈 *Activity Summary* (" ++ time_filter ++ "):\n\n• *"
        ++ toString total_messages ++ "* total messages\n• *"
        ++ toString unique_users ++ "* active participants\n• Most active: *"
        ++ most_active_user ++ "*\n• Peak activity: *"
        ++ toString peak_hour ++ ":00*\n\nRecent highlights:"
    let recent_messages :=
      if 3 ≤ messages.length then messages.drop (messages.length - 3) else messages
    recent_messages.foldl
      (fun acc m => acc ++ "\n• " ++ m.user ++ ": " ++ truncate100 m.text) header

/-- The `summary_prompt` f-string of `_summarize_channel`. -/
def summaryPromptF (time_filter message_text : String) : String :=
  "\n        Please provide a concise summary of the following Slack channel conversation ("
    ++ time_filter
    ++ "):\n\n        "
    ++ message_text
    ++ "\n\n        Focus on:\n        - Main topics discussed\n        - Key decisions or announcements\n        - Important questions or issues raised\n        - Action items mentioned\n        "

/-- `SlackRAGBot._summarize_channel`; the `rag_chatbot.ask` round trip to
the language model is an oracle. -/
def summarize_channel (rag_ask : String → String) (channel_id : String)
    (messages : List ChannelMessage) (time_filter : String) : String :=
  if messages = [] then "📭 No messages found in the channel for " ++ time_filter ++ "."
  else
    let message_text := format_messages_for_analysis messages
    let summary := rag_ask (summaryPromptF time_filter message_text)
    "📊 *Channel Summary* (" ++ time_filter ++ "):\n\n" ++ summary
      ++ "\n\n_Analyzed " ++ toString messages.length ++ " messages_"

/-- The string list of `_parse_channel_command`'s activity check.  The
Python source writes `"analyze" "recent"` (implicit string-literal
concatenation, no comma), so the first element is the single token
`"analyzerecent"`. -/
def activityWords : List String :=
  ["analyzerecent", "activity", "overview", "happen", "happening", "happened"]

/-- Match of the regex `<#([a-zA-Z0-9]+)\|>` at the current position:
after `<#`, the greedy `[a-zA-Z0-9]+` run must be non-empty and be
followed by `|>` (no shorter run can succeed, since an alphanumeric
character can never match `\|`). -/
def channelAt : List Char → Option (List Char)
  | '<' :: '#' :: rest =>
      let run := rest.takeWhile Char.isAlphanum
      match rest.dropWhile Char.isAlphanum with
      | '|' :: '>' :: _ => if run = [] then none else some run
      | _ => none
  | _ => none

/-- `re.search(r"<#([a-zA-Z0-9]+)\|>", s)`: first matching position. -/
def findChannel : List Char → Option (List Char)
  | [] => none
  | c :: rest =>
      match channelAt (c :: rest) with
      | some run => some run
      | none => findChannel rest

/-- The parsed channel command dictionary of `_parse_channel_command`. -/
structure ChannelCommand where
  channel_id : String
  command_type : String
  time_filter : String
  original_query : String
deriving DecidableEq

/-- `SlackRAGBot._parse_channel_command`. -/
def parse_channel_command (question : String) : Option ChannelCommand :=
  let question_lower := pyStrip (lowerChars question.data)
  match findChannel question_lower with
  | none => none
  | some run =>
      let command_type :=
        if activityWords.any (fun w => containsSub w.data question_lower) then "activity"
        else "summarize"
      let time_filter :=
        if containsSub "yesterday".data question_lower then "yesterday"
        else if containsSub "week".data question_lower then "week"
        else if containsSub "month".data question_lower then "month"
        else "today"
      some ⟨String.mk (run.map Char.toUpper), command_type, time_filter, question⟩

/-- `SlackRAGBot.get_answer`.  The regular-question path through
`rag_chatbot.ask` and the channel-command handler (which performs Slack
API calls) are oracles. -/
def get_answer (rag_ask : String → String)
    (handle_channel_command : ChannelCommand → String)
    (is_ready : Bool) (question : String) : String :=
  if !is_ready then "🚫 Sorry, the document system is not ready yet. Please contact an admin."
  else
    match parse_channel_command question with
    | some cmd => handle_channel_command cmd
    | none =>
        let answer := rag_ask question
        if containsSub "Error:".data answer.data then "❌ " ++ answer
        else if containsSub noRelevantInfo.data answer.data then
          "🤔 Please try rephrasing your question so that I can understand you better."
        else answer

/-- A concrete turn used by the history witness. -/
def witnessTurn (i : Nat) : ConversationTurn := ⟨toString i, "a", "rag"⟩

/-- A concrete over-budget channel message used by the trimming witness. -/
def bigMessage : ChannelMessage := ⟨String.mk (List.replicate 8100 'a'), "u", 1, 2⟩

/-- Claim C1: whenever the lower-cased, stripped question matches one of
the continuation patterns and a last classification is present,
`classify_query` returns exactly that last classification, regardless of
the general patterns and document keywords it contains. -/
theorem claim1_continuation_precedence (loadedDocuments : List String) (c : String)
    (question : String)
    (h : continuationMatch (pyStrip (lowerChars question.data)) = true) :
    classify_query loadedDocuments (some c) question = c := by
  unfold classify_query
  simp [h]

/-- Witness for C1 at a concrete continuation question that also matches a
general pattern ("hello") and contains several document keywords. -/
theorem claim1_continuation_precedence_witness :
    continuationMatch (pyStrip (lowerChars
      ("hello, also tell me more about that policy document".data))) = true ∧
    classify_query [] (some "rag")
      "hello, also tell me more about that policy document" = "rag" :=
  ⟨by decide,
   claim1_continuation_precedence [] "rag"
     "hello, also tell me more about that policy document" (by decide)⟩

/-- Claim C2 fails as stated: the general-chat patterns are checked before
the keyword count, so "hello policy document" contains three distinct
configured keywords ("document", "doc", "policy") yet classifies as
`general`, not `rag`. -/
theorem claim2_keyword_thresholds_counterexample :
    2 ≤ distinctDocScore [] (pyStrip (lowerChars ("hello policy document".data))) ∧
    classify_query [] none "hello policy document" = "general" := by
  constructor
  · decide
  · decide

/-- Claim C2 (amended): provided the question matches no continuation
pattern (or no last classification is set), matches no general-chat
pattern, and the configured keyword list has no duplicate entries, a
question containing at least 2 distinct configured keywords classifies as
`rag` (document-query) and one containing exactly 1 as `mixed` (hybrid). -/
theorem claim2_keyword_thresholds_amended (loadedDocuments : List String)
    (last : Option String) (question : String)
    (hnodup : (document_keywords loadedDocuments).Nodup)
    (hcont : continuationMatch (pyStrip (lowerChars question.data)) = false ∨ last = none)
    (hgen : generalMatch (pyStrip (lowerChars question.data)) = false) :
    (2 ≤ distinctDocScore loadedDocuments (pyStrip (lowerChars question.data)) →
      classify_query loadedDocuments last question = "rag") ∧
    (distinctDocScore loadedDocuments (pyStrip (lowerChars question.data)) = 1 →
      classify_query loadedDocuments last question = "mixed") := by
  have hd : distinctDocScore loadedDocuments (pyStrip (lowerChars question.data))
      = docScore loadedDocuments (pyStrip (lowerChars question.data)) := by
    unfold distinctDocScore docScore
    rw [List.dedup_eq_self.mpr hnodup]
  have hcond : (continuationMatch (pyStrip (lowerChars question.data))
      && last.isSome) = false := by
    rcases hcont with hc | hc
    · simp [hc]
    · simp [hc]
  rw [hd]
  unfold classify_query
  simp only [hcond, Bool.false_eq_true, if_false, hgen]
  constructor
  · intro h
    simp [h]
  · intro h
    simp [h]

/-- Witness for C2 (amended) at the two-keyword question
"summarize the policy" and the one-keyword question "what is the rule". -/
theorem claim2_keyword_thresholds_amended_witness :
    (2 ≤ distinctDocScore [] (pyStrip (lowerChars ("summarize the policy".data))) ∧
      classify_query [] none "summarize the policy" = "rag") ∧
    (distinctDocScore [] (pyStrip (lowerChars ("what is the rule".data))) = 1 ∧
      classify_query [] none "what is the rule" = "mixed") :=
  ⟨⟨by decide,
    (claim2_keyword_thresholds_amended [] none "summarize the policy"
      (by decide) (Or.inr rfl) (by decide)).1 (by decide)⟩,
   ⟨by decide,
    (claim2_keyword_thresholds_amended [] none "what is the rule"
      (by decide) (Or.inr rfl) (by decide)).2 (by decide)⟩⟩

/-- A single append that respects the bound keeps the list intact. -/
theorem add_to_history_short (H : Nat) (h : List ConversationTurn)
    (t : ConversationTurn) (hlen : h.length + 1 ≤ H) :
    add_to_history H h t = h ++ [t] := by
  have hc : ¬ H < (h ++ [t]).length := by
    simp
    omega
  simp only [add_to_history]
  rw [if_neg hc]

/-- A single append preserves the length bound. -/
theorem add_to_history_length (H : Nat) (h : List ConversationTurn)
    (t : ConversationTurn) (hle : h.length ≤ H) :
    (add_to_history H h t).length ≤ H := by
  simp only [add_to_history]
  by_cases hc : H < (h ++ [t]).length
  · rw [if_pos hc]
    simp
    omega
  · rw [if_neg hc]
    simp at hc ⊢
    omega

/-- Folding appends that fit within the bound reproduces plain append. -/
theorem foldl_add_to_history_short (H : Nat) :
    ∀ (ts : List ConversationTurn) (h : List ConversationTurn),
      h.length + ts.length ≤ H →
      List.foldl (add_to_history H) h ts = h ++ ts := by
  intro ts
  induction ts with
  | nil =>
      intro h _
      simp
  | cons t rest ih =>
      intro h hlen
      simp only [List.foldl_cons]
      have h1 : h.length + 1 ≤ H := by
        simp at hlen
        omega
      rw [add_to_history_short H h t h1]
      rw [ih (h ++ [t]) (by simp; simp at hlen; omega)]
      simp

/-- Claim C3: the conversation history never exceeds the configured
maximum `H` under any sequence of appends starting from the empty
history, and after exactly `H + 1` appends the buffer holds the last `H`
appended turns in order — the earliest turn has been evicted (FIFO). -/
theorem claim3_history_fifo_bound (H : Nat) :
    (∀ ts : List ConversationTurn,
      (List.foldl (add_to_history H) [] ts).length ≤ H) ∧
    (∀ ts : List ConversationTurn, ts.length = H + 1 →
      List.foldl (add_to_history H) [] ts = ts.drop 1 ∧
      (List.foldl (add_to_history H) [] ts).length = H) := by
  constructor
  · intro ts
    have main : ∀ (l : List ConversationTurn) (h : List ConversationTurn),
        h.length ≤ H → (List.foldl (add_to_history H) h l).length ≤ H := by
      intro l
      induction l with
      | nil =>
          intro h hh
          simpa using hh
      | cons t rest ih =>
          intro h hh
          exact ih _ (add_to_history_length H h t hh)
    exact main ts [] (by simp)
  · intro ts hlen
    have hne : ts ≠ [] := by
      intro hnil
      subst hnil
      simp at hlen
    have hdecomp := List.dropLast_append_getLast hne
    have hdl : ts.dropLast.length = H := by
      simp [List.length_dropLast, hlen]
    have hfold : List.foldl (add_to_history H) [] ts
        = add_to_history H ts.dropLast (ts.getLast hne) := by
      conv_lhs => rw [← hdecomp]
      rw [List.foldl_append]
      rw [foldl_add_to_history_short H ts.dropLast [] (by simp [hdl])]
      simp
    have hstep : add_to_history H ts.dropLast (ts.getLast hne) = ts.drop 1 := by
      have hgt : H < (ts.dropLast ++ [ts.getLast hne]).length := by
        rw [hdecomp]
        omega
      simp only [add_to_history]
      rw [if_pos hgt, hdecomp]
    refine ⟨hfold.trans hstep, ?_⟩
    rw [hfold.trans hstep]
    simp [hlen]

/-- Witness for C3: with the configured capacity 10, folding 11 distinct
turns leaves exactly the last 10 in order. -/
theorem claim3_history_fifo_bound_witness :
    List.foldl (add_to_history MAX_HISTORY_LENGTH) []
        ((List.range (MAX_HISTORY_LENGTH + 1)).map witnessTurn)
      = ((List.range (MAX_HISTORY_LENGTH + 1)).map witnessTurn).drop 1 ∧
    (List.foldl (add_to_history MAX_HISTORY_LENGTH) []
        ((List.range (MAX_HISTORY_LENGTH + 1)).map witnessTurn)).length
      = MAX_HISTORY_LENGTH :=
  (claim3_history_fifo_bound MAX_HISTORY_LENGTH).2 _ (by decide)

/-- Claim C4 fails as stated: the fallback test is a case-insensitive
substring check for `fallbackPhrase`, not an equality test against the
sentinel.  A RAG answer that merely contains the phrase — here one
produced verbatim by the external chain — is not the sentinel string, yet
`ask_mixed` still falls back to the general path. -/
theorem claim4_hybrid_fallback_counterexample :
    ask_rag (fun _ => ("Sadly I don\x27t find any relevant information here.", []))
        [] "what is the policy" ≠ noRelevantInfo ∧
    ask_mixed (fun _ => ("Sadly I don\x27t find any relevant information here.", []))
        (fun _ => "General chat reply") [] ["Handbook"] "what is the policy"
      = "General chat reply" ++ mixedSuggestion ["Handbook"] := by
  constructor
  · decide
  · decide

/-- Claim C4 (amended): `ask_mixed` first computes the document-query
path's result; it returns that result unchanged unless its lower-cased
text contains the substring "don't find any relevant information", in
which case — and only in which case — it returns the general-chat answer
with the document-name suggestion appended.  The fixed sentinel does
contain that substring, so a sentinel result always falls back. -/
theorem claim4_hybrid_fallback_amended (rag_chain : String → String × List String)
    (llm : String → String) (history : List ConversationTurn)
    (loadedDocuments : List String) (question : String) :
    (containsSub fallbackPhrase.data
        (lowerChars (ask_rag rag_chain history question).data) = false →
      ask_mixed rag_chain llm history loadedDocuments question
        = ask_rag rag_chain history question) ∧
    (containsSub fallbackPhrase.data
        (lowerChars (ask_rag rag_chain history question).data) = true →
      ask_mixed rag_chain llm history loadedDocuments question
        = ask_general llm history question ++ mixedSuggestion loadedDocuments) ∧
    containsSub fallbackPhrase.data (lowerChars noRelevantInfo.data) = true := by
  refine ⟨?_, ?_, by decide⟩
  · intro h
    simp only [ask_mixed, h, Bool.not_false, if_pos]
  · intro h
    simp only [ask_mixed, h, Bool.not_true, Bool.false_eq_true, if_false]

/-- Witness for C4 (amended): a successful RAG result (with attribution)
is returned as-is by the hybrid path. -/
theorem claim4_hybrid_fallback_amended_witness :
    ask_mixed (fun _ => ("The policy says remote work is allowed.", ["Handbook"]))
        (fun _ => "General chat reply") [] ["Handbook"] "what is the policy"
      = ask_rag (fun _ => ("The policy says remote work is allowed.", ["Handbook"]))
          [] "what is the policy" :=
  (claim4_hybrid_fallback_amended
      (fun _ => ("The policy says remote work is allowed.", ["Handbook"]))
      (fun _ => "General chat reply") [] ["Handbook"] "what is the policy").1
    (by decide)

/-- Claim C9: on a ready system, a question that strips to nothing makes
`ask` return the fixed prompt string and the state untouched — no history
entry, no last-classification update, and, since the result is the same
for every oracle, no external service call. -/
theorem claim9_blank_question_no_effect (rag_chain : String → String × List String)
    (llm : String → String) (loadedDocuments : List String)
    (max_history_length : Nat) (st : ChatState) (question : String)
    (h : pyStrip question.data = []) :
    ask rag_chain llm loadedDocuments max_history_length true st question
      = ("Please ask me something! I can help with documents or just chat.", st) := by
  simp only [ask, Bool.not_true, Bool.false_eq_true, if_false, h, if_pos]

/-- Witness for C9 at an all-whitespace question and a non-trivial state. -/
theorem claim9_blank_question_no_effect_witness :
    ask (fun _ => ("x", [])) (fun _ => "y") ["Handbook"] MAX_HISTORY_LENGTH true
        ⟨[⟨"q1", "a1", "rag"⟩], some "rag"⟩ "  \t "
      = ("Please ask me something! I can help with documents or just chat.",
         ⟨[⟨"q1", "a1", "rag"⟩], some "rag"⟩) :=
  claim9_blank_question_no_effect (fun _ => ("x", [])) (fun _ => "y") ["Handbook"]
    MAX_HISTORY_LENGTH ⟨[⟨"q1", "a1", "rag"⟩], some "rag"⟩ "  \t " (by decide)

/-- Folding the line-prepending step over a seed string is joining the
lines and appending the seed. -/
theorem tailJoin_foldr_seed (xs : List String) (s : String) :
    xs.foldr (fun m acc => m ++ "\n" ++ acc) s = tailJoin xs ++ s := by
  induction xs with
  | nil => exact (String.empty_append s).symm
  | cons x xs ih =>
      simp only [tailJoin, List.foldr_cons] at ih ⊢
      rw [ih, ← String.append_assoc]

/-- `tailJoin` over a snoc. -/
theorem tailJoin_concat (xs : List String) (m : String) :
    tailJoin (xs ++ [m]) = tailJoin xs ++ (m ++ "\n") := by
  have h1 : tailJoin (xs ++ [m])
      = xs.foldr (fun a acc => a ++ "\n" ++ acc) (m ++ "\n" ++ "") := by
    simp only [tailJoin, List.foldr_append, List.foldr_cons, List.foldr_nil]
  rw [h1, String.append_empty, tailJoin_foldr_seed]

/-- Invariant of the trimming loop: starting from a within-budget
accumulator it consumes some prefix of its (reversed) input, produces that
prefix re-reversed and joined in front of the accumulator, and stays
within the 8000-character budget. -/
theorem trimRecent_spec (l : List String) :
    ∀ acc : String, acc.length ≤ 8000 →
    ∃ n, n ≤ l.length ∧
      trimRecent l acc = tailJoin (l.take n).reverse ++ acc ∧
      (trimRecent l acc).length ≤ 8000 := by
  induction l with
  | nil =>
      intro acc hacc
      refine ⟨0, Nat.le_refl 0, ?_, ?_⟩
      · exact (String.empty_append acc).symm
      · exact hacc
  | cons m rest ih =>
      intro acc hacc
      by_cases hc : (acc ++ m).length < 8000
      · have hacc2 : (m ++ "\n" ++ acc).length ≤ 8000 := by
          rw [String.length_append, String.length_append]
          rw [String.length_append] at hc
          have h1 : ("\n" : String).length = 1 := rfl
          omega
        obtain ⟨n, hn, heq, hlen⟩ := ih (m ++ "\n" ++ acc) hacc2
        have hun : trimRecent (m :: rest) acc = trimRecent rest (m ++ "\n" ++ acc) := by
          simp only [trimRecent]
          rw [if_pos hc]
        refine ⟨n + 1, by simp only [List.length_cons]; omega, ?_, ?_⟩
        · rw [hun, heq, List.take_succ_cons, List.reverse_cons, tailJoin_concat,
            ← String.append_assoc]
        · rw [hun]
          exact hlen
      · have hun : trimRecent (m :: rest) acc = acc := by
          simp only [trimRecent]
          rw [if_neg hc]
        refine ⟨0, Nat.zero_le _, ?_, ?_⟩
        · rw [hun]
          exact (String.empty_append acc).symm
        · rw [hun]
          exact hacc

/-- Claim C7: when the joined transcript exceeds 8000 characters, the kept
text is a suffix of the formatted message lines — whole messages only, the
most recent ones, in their original chronological order — and its total
length stays within 8000 characters. -/
theorem claim7_transcript_trimming (messages : List ChannelMessage)
    (h : 8000 < (joinSep "\n" (messages.map formatMessage)).length) :
    ∃ k, format_messages_for_analysis messages
        = tailJoin ((messages.map formatMessage).drop k) ∧
      (format_messages_for_analysis messages).length ≤ 8000 := by
  have hfmt : format_messages_for_analysis messages
      = trimRecent (messages.map formatMessage).reverse "" := by
    simp only [format_messages_for_analysis]
    rw [if_pos h]
  obtain ⟨n, hn, heq, hlen⟩ :=
    trimRecent_spec (messages.map formatMessage).reverse "" (by decide)
  refine ⟨(messages.map formatMessage).length - n, ?_, ?_⟩
  · rw [hfmt, heq, String.append_empty]
    have hrev : ((messages.map formatMessage).reverse.take n).reverse
        = (messages.map formatMessage).drop
            ((messages.map formatMessage).length - n) :=
      (List.rtake_eq_reverse_take_reverse (messages.map formatMessage) n).symm
    rw [hrev]
  · rw [hfmt]
    exact hlen

/-- The concrete witness transcript exceeds the 8000-character budget. -/
theorem bigMessage_joined_big :
    8000 < (joinSep "\n" ([bigMessage].map formatMessage)).length := by
  have h1 : joinSep "\n" ([bigMessage].map formatMessage)
      = "[01:02] u: " ++ String.mk (List.replicate 8100 'a') := rfl
  rw [h1, String.length_append]
  rw [show (String.mk (List.replicate 8100 'a')).length
      = (List.replicate 8100 'a').length from rfl]
  rw [List.length_replicate]
  decide

/-- Witness for C7 at a single 8111-character formatted message. -/
theorem claim7_transcript_trimming_witness :
    8000 < (joinSep "\n" ([bigMessage].map formatMessage)).length ∧
    ∃ k, format_messages_for_analysis [bigMessage]
        = tailJoin (([bigMessage].map formatMessage).drop k) ∧
      (format_messages_for_analysis [bigMessage]).length ≤ 8000 :=
  ⟨bigMessage_joined_big, claim7_transcript_trimming [bigMessage] bigMessage_joined_big⟩

/-- Claim C8: on an empty message list both analyzers return their fixed
sentinel strings; the summarizer's result is the same for every language
model oracle (no call is made), and the activity analyzer takes no oracle
at all. -/
theorem claim8_empty_messages_sentinels (channel_id time_filter : String)
    (rag_ask : String → String) :
    analyze_activity channel_id [] time_filter
      = "📭 No activity found in the channel for " ++ time_filter ++ "." ∧
    summarize_channel rag_ask channel_id [] time_filter
      = "📭 No messages found in the channel for " ++ time_filter ++ "." ∧
    ∀ other_ask : String → String,
      summarize_channel rag_ask channel_id [] time_filter
        = summarize_channel other_ask channel_id [] time_filter := by
  refine ⟨?_, ?_, ?_⟩
  · simp [analyze_activity]
  · simp [summarize_channel]
  · intro other_ask
    simp [summarize_channel]

/-- Claim C5: for every message that parses as a channel command, the
operation is `activity` exactly when the message contains one of the
tokens `analyzerecent` (the source's adjacent string literals
`"analyze" "recent"`), `activity`, `overview`, `happen`, `happening`,
`happened`, and `summarize` otherwise; in particular "analyze recent"
with a space matches none of them. -/
theorem claim5_operation_selection (question : String) (cmd : ChannelCommand)
    (h : parse_channel_command question = some cmd) :
    cmd.command_type
      = (if activityWords.any
            (fun w => containsSub w.data (pyStrip (lowerChars question.data)))
         then "activity" else "summarize") := by
  simp only [parse_channel_command] at h
  cases hf : findChannel (pyStrip (lowerChars question.data)) with
  | none => simp [hf] at h
  | some run =>
      simp only [hf, Option.some.injEq] at h
      rw [← h]

/-- Witness for C5: "analyze recent" (with the space) selects
`summarize`. -/
theorem claim5_operation_selection_witness :
    parse_channel_command "<#C123|> analyze recent"
      = some ⟨"C123", "summarize", "today", "<#C123|> analyze recent"⟩ ∧
    (⟨"C123", "summarize", "today", "<#C123|> analyze recent"⟩
        : ChannelCommand).command_type
      = (if activityWords.any
            (fun w => containsSub w.data
              (pyStrip (lowerChars ("<#C123|> analyze recent".data))))
         then "activity" else "summarize") :=
  ⟨by decide,
   claim5_operation_selection "<#C123|> analyze recent"
     ⟨"C123", "summarize", "today", "<#C123|> analyze recent"⟩ (by decide)⟩

/-- Claim C6: `"<#C123|> summarize yesterday"` parses to channel `C123`,
operation `summarize`, time window `yesterday`; any message in which the
channel-reference regex finds no match parses to `none`. -/
theorem claim6_parse_roundtrip :
    parse_channel_command "<#C123|> summarize yesterday"
      = some ⟨"C123", "summarize", "yesterday", "<#C123|> summarize yesterday"⟩ ∧
    ∀ question : String,
      findChannel (pyStrip (lowerChars question.data)) = none →
      parse_channel_command question = none := by
  constructor
  · decide
  · intro question hq
    simp only [parse_channel_command, hq]

/-- Witness for C6's second part at a message with no channel token. -/
theorem claim6_parse_roundtrip_witness :
    parse_channel_command "hello world" = none :=
  claim6_parse_roundtrip.2 "hello world" (by decide)

/-- Claim C10 fails as stated: the `"Error:"` check precedes the sentinel
check, so an answer containing both is returned (prefixed with ❌) with
the sentinel still inside it, not replaced by the rephrase message. -/
theorem claim10_sentinel_rephrase_counterexample :
    containsSub noRelevantInfo.data ("Error: " ++ noRelevantInfo).data = true ∧
    get_answer (fun _ => "Error: " ++ noRelevantInfo) (fun _ => "") true "hi"
      ≠ "🤔 Please try rephrasing your question so that I can understand you better." ∧
    containsSub noRelevantInfo.data
      (get_answer (fun _ => "Error: " ++ noRelevantInfo) (fun _ => "") true "hi").data
      = true := by
  refine ⟨by decide, by decide, by decide⟩

/-- Claim C10 (amended): for a ready system and a non-command question,
if the router's answer contains the sentinel and does not contain
`"Error:"`, `get_answer` discards it and returns the fixed rephrase
message. -/
theorem claim10_sentinel_rephrase_amended (rag_ask : String → String)
    (handle_channel_command : ChannelCommand → String) (question : String)
    (h1 : parse_channel_command question = none)
    (h2 : containsSub "Error:".data (rag_ask question).data = false)
    (h3 : containsSub noRelevantInfo.data (rag_ask question).data = true) :
    get_answer rag_ask handle_channel_command true question
      = "🤔 Please try rephrasing your question so that I can understand you better." := by
  simp [get_answer, h1, h2, h3]

/-- Witness for C10 (amended) with a router oracle returning exactly the
sentinel. -/
theorem claim10_sentinel_rephrase_amended_witness :
    get_answer (fun _ => noRelevantInfo) (fun _ => "") true "what is the policy"
      = "🤔 Please try rephrasing your question so that I can understand you better." :=
  claim10_sentinel_rephrase_amended (fun _ => noRelevantInfo) (fun _ => "")
    "what is the policy" (by decide) (by decide) (by decide)
